import Mathlib

/-!
Verification of `testtool_ex.py` (an ArcGIS/ModelBuilder-generated script).

The script is straight-line glue over the external `arcpy` library:
it conditionally deletes two stale output feature classes, buffers
`major_roads` by a user-supplied distance, and clips `tracts` by the
buffer result.

The geodatabase is embedded as an association list from dataset
identifiers (strings) to abstract feature-class data `D`.  The external
`arcpy` operations (existence check, delete, buffer, clip) are not part
of the repository, so they are modelled from the spec's external
operation surface; the geometric content of buffer and clip is kept
abstract in a `Toolbox` of functions.  Every external call the script
issues is recorded in a trace, so both the effect on the store and the
sequence of operations can be reasoned about.
-/

/-- A geodatabase container: named feature classes holding data of type `D`. -/
def Store (D : Type) : Type := List (String × D)

namespace arcpy

/-- Look up the feature class stored at `path` (first binding wins). -/
def lookupFC {D : Type} : Store D → String → Option D
  | [], _ => none
  | (k, d) :: t, path => if k = path then some d else lookupFC t path

/-- Remove every binding for `path` from the store. -/
def removeFC {D : Type} : Store D → String → Store D
  | [], _ => []
  | (k, d) :: t, path =>
      if k = path then removeFC t path else (k, d) :: removeFC t path

/-- Store the feature class `d` at `path`, replacing any previous binding. -/
def putFC {D : Type} (s : Store D) (path : String) (d : D) : Store D :=
  (path, d) :: removeFC s path

/-- Modelled from the spec: the external library's `exists(path) -> bool`
check on the data store.  The library itself is not part of the repository. -/
def Exists {D : Type} (s : Store D) (path : String) : Bool :=
  (lookupFC s path).isSome

/-- Failures of the external operations, as surfaced to the script. -/
inductive Err where
  | deleteMissing : String → Err
  | bufferMissingInput : String → Err
  | clipMissingInput : String → Err
deriving DecidableEq

/-- The abstract geometric content of the external toolkit: how buffer and
clip compute output feature-class data from input data and parameters.
`bufferGeom` takes the input data, the distance expression, side, end caps,
dissolve option, dissolve field and method; `clipGeom` takes the input data,
the clip-features data and the cluster tolerance. -/
structure Toolbox (D : Type) where
  bufferGeom : D → String → String → String → String → String → String → D
  clipGeom : D → D → String → D

/-- Modelled from the spec: the external `delete(path, kind)` operation.
Deleting a dataset that does not exist is the operation's error branch. -/
def Delete_management {D : Type} (s : Store D) (path kind : String) :
    Except Err (Store D) :=
  if Exists s path then Except.ok (removeFC s path)
  else Except.error (Err.deleteMissing path)

/-- Modelled from the spec: the external
`buffer(in, out, distance_expr, side, caps, dissolve_option, dissolve_field, method)`
operation.  It fails if the input feature class is missing; otherwise it
stores the toolbox's buffer of the input data at the output identifier. -/
def Buffer_analysis {D : Type} (tb : Toolbox D) (s : Store D)
    (inFC outFC dist side caps dopt dfield method : String) :
    Except Err (Store D) :=
  match lookupFC s inFC with
  | some d =>
      Except.ok (putFC s outFC (tb.bufferGeom d dist side caps dopt dfield method))
  | none => Except.error (Err.bufferMissingInput inFC)

/-- Modelled from the spec: the external
`clip(in, clip_features, out, cluster_tolerance)` operation.  It fails if
either input feature class is missing; otherwise it stores the toolbox's
clip of the input by the clip features at the output identifier. -/
def Clip_analysis {D : Type} (tb : Toolbox D) (s : Store D)
    (inFC clipFC outFC tol : String) : Except Err (Store D) :=
  match lookupFC s inFC with
  | none => Except.error (Err.clipMissingInput inFC)
  | some a =>
      match lookupFC s clipFC with
      | none => Except.error (Err.clipMissingInput clipFC)
      | some b => Except.ok (putFC s outFC (tb.clipGeom a b tol))

end arcpy

/-- One external call issued by the script, with all its arguments. -/
inductive Call where
  | existsCheck : String → Call
  | deleteCall : String → String → Call
  | bufferCall : String → String → String → String → String → String → String → String → Call
  | clipCall : String → String → String → String → Call
deriving DecidableEq

-- Local variables of the script (from the source).
def tracts : String := "tabletesting.gdb/tracts"

def major_roads : String := "tabletesting.gdb/major_roads"

def major_roads_Buffer : String := "tabletesting.gdb/major_roads_Buffer"

def tracts_Clip : String := "tabletesting.gdb/tracts_Clip"

def Delete_succeeded : String := "false"

def Delete_succeeded__2_ : String := "false"

/-- Sequence a traced, fallible step with its continuation: on failure the
continuation is never run and no further calls are recorded. -/
def thenDo {D : Type}
    (r : List Call × Except arcpy.Err (Store D))
    (k : Store D → List Call × Except arcpy.Err (Store D)) :
    List Call × Except arcpy.Err (Store D) :=
  match r with
  | (t, Except.error e) => (t, Except.error e)
  | (t, Except.ok s) => (t ++ (k s).1, (k s).2)

/-- One `if arcpy.Exists(path): arcpy.Delete_management(path, kind)` block
of the script: the existence check is always issued, the delete only when
the check succeeds. -/
def guardedDelete {D : Type} (s : Store D) (path kind : String) :
    List Call × Except arcpy.Err (Store D) :=
  if arcpy.Exists s path then
    ([Call.existsCheck path, Call.deleteCall path kind],
     arcpy.Delete_management s path kind)
  else
    ([Call.existsCheck path], Except.ok s)

/-- The script's two guarded deletions of the stale outputs, in source order. -/
def phaseDeletes {D : Type} (s0 : Store D) :
    List Call × Except arcpy.Err (Store D) :=
  thenDo (guardedDelete s0 major_roads_Buffer "FeatureClass") (fun s1 =>
    guardedDelete s1 tracts_Clip "FeatureClass")

/-- The script up to and including the buffer step
`arcpy.Buffer_analysis(major_roads, major_roads_Buffer, inputdata + " Miles",
"FULL", "ROUND", "ALL", "", "PLANAR")`. -/
def phaseBuffer {D : Type} (tb : arcpy.Toolbox D) (inputdata : String)
    (s0 : Store D) : List Call × Except arcpy.Err (Store D) :=
  thenDo (phaseDeletes s0) (fun s2 =>
    ([Call.bufferCall major_roads major_roads_Buffer (inputdata ++ " Miles")
        "FULL" "ROUND" "ALL" "" "PLANAR"],
     arcpy.Buffer_analysis tb s2 major_roads major_roads_Buffer
       (inputdata ++ " Miles") "FULL" "ROUND" "ALL" "" "PLANAR"))

/-- The whole script body, ending with the clip step
`arcpy.Clip_analysis(tracts, major_roads_Buffer, tracts_Clip, "")`.
`inputdata` is the run-time parameter `arcpy.GetParameterAsText(0)`.
Returns the trace of external calls issued and either the final store or
the first error, propagated unmodified. -/
def runScript {D : Type} (tb : arcpy.Toolbox D) (inputdata : String)
    (s0 : Store D) : List Call × Except arcpy.Err (Store D) :=
  thenDo (phaseBuffer tb inputdata s0) (fun s3 =>
    ([Call.clipCall tracts major_roads_Buffer tracts_Clip ""],
     arcpy.Clip_analysis tb s3 tracts major_roads_Buffer tracts_Clip ""))

/-! ### Store lemmas -/

namespace arcpy

lemma lookupFC_removeFC_self {D : Type} (s : Store D) (k : String) :
    lookupFC (removeFC s k) k = none := by
  induction s with
  | nil => rfl
  | cons a t ih =>
      obtain ⟨a1, a2⟩ := a
      by_cases h : a1 = k
      · simpa [removeFC, h] using ih
      · simpa [removeFC, lookupFC, h] using ih

lemma lookupFC_removeFC_ne {D : Type} (s : Store D) (k p : String)
    (h : p ≠ k) : lookupFC (removeFC s k) p = lookupFC s p := by
  induction s with
  | nil => rfl
  | cons a t ih =>
      obtain ⟨a1, a2⟩ := a
      by_cases h1 : a1 = k
      · have hkp : k ≠ p := fun hh => h hh.symm
        simp [removeFC, lookupFC, h1, hkp, ih]
      · by_cases h2 : a1 = p
        · simp [removeFC, lookupFC, h1, h2, h]
        · simp [removeFC, lookupFC, h1, h2, ih]

lemma lookupFC_putFC_self {D : Type} (s : Store D) (k : String) (d : D) :
    lookupFC (putFC s k d) k = some d := by
  simp [putFC, lookupFC]

lemma lookupFC_putFC_ne {D : Type} (s : Store D) (k p : String) (d : D)
    (h : p ≠ k) : lookupFC (putFC s k d) p = lookupFC s p := by
  have : k ≠ p := h.symm
  simp [putFC, lookupFC, this, lookupFC_removeFC_ne s k p h]

lemma Exists_eq_true {D : Type} (s : Store D) (p : String) :
    Exists s p = true ↔ (lookupFC s p).isSome = true := Iff.rfl

lemma lookupFC_eq_none_of_Exists_false {D : Type} (s : Store D) (p : String)
    (h : Exists s p = false) : lookupFC s p = none := by
  cases ho : lookupFC s p with
  | none => rfl
  | some d => simp [Exists, ho] at h

end arcpy

/-! ### The four dataset identifiers are pairwise distinct strings. -/

lemma tracts_ne_buffer : tracts ≠ major_roads_Buffer := by decide

lemma tracts_ne_clipOut : tracts ≠ tracts_Clip := by decide

lemma roads_ne_buffer : major_roads ≠ major_roads_Buffer := by decide

lemma roads_ne_clipOut : major_roads ≠ tracts_Clip := by decide

lemma buffer_ne_clipOut : major_roads_Buffer ≠ tracts_Clip := by decide

/-! ### Characterizing the run -/

/-- The store after the two guarded deletions: both stale outputs removed. -/
def postDeletes {D : Type} (s0 : Store D) : Store D :=
  let s1 := if arcpy.Exists s0 major_roads_Buffer then
    arcpy.removeFC s0 major_roads_Buffer else s0
  if arcpy.Exists s1 tracts_Clip then arcpy.removeFC s1 tracts_Clip else s1

/-- The external calls issued by the deletion phase, as a function of which
stale outputs are present initially. -/
def deleteTrace {D : Type} (s0 : Store D) : List Call :=
  (if arcpy.Exists s0 major_roads_Buffer then
      [Call.existsCheck major_roads_Buffer,
       Call.deleteCall major_roads_Buffer "FeatureClass"]
    else [Call.existsCheck major_roads_Buffer]) ++
  (if arcpy.Exists s0 tracts_Clip then
      [Call.existsCheck tracts_Clip,
       Call.deleteCall tracts_Clip "FeatureClass"]
    else [Call.existsCheck tracts_Clip])

/-- The buffer call the script issues for a given run-time parameter. -/
def bufCall (inputdata : String) : Call :=
  Call.bufferCall major_roads major_roads_Buffer (inputdata ++ " Miles")
    "FULL" "ROUND" "ALL" "" "PLANAR"

/-- The clip call the script issues. -/
def clipCallC : Call :=
  Call.clipCall tracts major_roads_Buffer tracts_Clip ""

lemma Exists_removeFC_ne {D : Type} (s : Store D) (k p : String) (h : p ≠ k) :
    arcpy.Exists (arcpy.removeFC s k) p = arcpy.Exists s p := by
  simp [arcpy.Exists, arcpy.lookupFC_removeFC_ne s k p h]

/-- The deletion phase always succeeds, produces `deleteTrace`, and leaves
the store `postDeletes s0`. -/
lemma phaseDeletes_eq {D : Type} (s0 : Store D) :
    phaseDeletes s0 = (deleteTrace s0, Except.ok (postDeletes s0)) := by
  by_cases h1 : arcpy.Exists s0 major_roads_Buffer
  · by_cases h2 : arcpy.Exists s0 tracts_Clip
    · have h2' : arcpy.Exists (arcpy.removeFC s0 major_roads_Buffer) tracts_Clip = true := by
        rw [Exists_removeFC_ne s0 major_roads_Buffer tracts_Clip buffer_ne_clipOut.symm]
        exact h2
      simp [phaseDeletes, guardedDelete, thenDo, arcpy.Delete_management,
        deleteTrace, postDeletes, h1, h2, h2']
    · have h2' : arcpy.Exists (arcpy.removeFC s0 major_roads_Buffer) tracts_Clip = false := by
        rw [Exists_removeFC_ne s0 major_roads_Buffer tracts_Clip buffer_ne_clipOut.symm]
        simpa using h2
      simp [phaseDeletes, guardedDelete, thenDo, arcpy.Delete_management,
        deleteTrace, postDeletes, h1, h2, h2']
  · by_cases h2 : arcpy.Exists s0 tracts_Clip
    · simp [phaseDeletes, guardedDelete, thenDo, arcpy.Delete_management,
        deleteTrace, postDeletes, h1, h2]
    · simp [phaseDeletes, guardedDelete, thenDo, arcpy.Delete_management,
        deleteTrace, postDeletes, h1, h2]

lemma lookupFC_postDeletes_ne {D : Type} (s0 : Store D) (p : String)
    (h1 : p ≠ major_roads_Buffer) (h2 : p ≠ tracts_Clip) :
    arcpy.lookupFC (postDeletes s0) p = arcpy.lookupFC s0 p := by
  unfold postDeletes
  by_cases e1 : arcpy.Exists s0 major_roads_Buffer
  · by_cases e2 : arcpy.Exists (arcpy.removeFC s0 major_roads_Buffer) tracts_Clip
    · simp [e1, e2, arcpy.lookupFC_removeFC_ne _ _ _ h2,
        arcpy.lookupFC_removeFC_ne _ _ _ h1]
    · simp [e1, e2, arcpy.lookupFC_removeFC_ne _ _ _ h1]
  · by_cases e2 : arcpy.Exists s0 tracts_Clip
    · simp [e1, e2, arcpy.lookupFC_removeFC_ne _ _ _ h2]
    · simp [e1, e2]

lemma lookupFC_postDeletes_buffer {D : Type} (s0 : Store D) :
    arcpy.lookupFC (postDeletes s0) major_roads_Buffer = none := by
  unfold postDeletes
  by_cases e1 : arcpy.Exists s0 major_roads_Buffer
  · by_cases e2 : arcpy.Exists (arcpy.removeFC s0 major_roads_Buffer) tracts_Clip
    · simp [e1, e2,
        arcpy.lookupFC_removeFC_ne _ _ _ buffer_ne_clipOut,
        arcpy.lookupFC_removeFC_self]
    · simp [e1, e2, arcpy.lookupFC_removeFC_self]
  · by_cases e2 : arcpy.Exists s0 tracts_Clip
    · simp [e1, e2,
        arcpy.lookupFC_removeFC_ne _ _ _ buffer_ne_clipOut,
        arcpy.lookupFC_eq_none_of_Exists_false s0 major_roads_Buffer (by simpa using e1)]
    · simp [e1, e2,
        arcpy.lookupFC_eq_none_of_Exists_false s0 major_roads_Buffer (by simpa using e1)]

lemma lookupFC_postDeletes_clipOut {D : Type} (s0 : Store D) :
    arcpy.lookupFC (postDeletes s0) tracts_Clip = none := by
  unfold postDeletes
  by_cases e1 : arcpy.Exists s0 major_roads_Buffer
  · by_cases e2 : arcpy.Exists (arcpy.removeFC s0 major_roads_Buffer) tracts_Clip
    · simp [e1, e2, arcpy.lookupFC_removeFC_self]
    · simp only [if_pos e1, if_neg e2]
      exact arcpy.lookupFC_eq_none_of_Exists_false _ _ (by simpa using e2)
  · by_cases e2 : arcpy.Exists s0 tracts_Clip
    · simp [e1, e2, arcpy.lookupFC_removeFC_self]
    · simp only [if_neg e1, if_neg e2]
      exact arcpy.lookupFC_eq_none_of_Exists_false _ _ (by simpa using e2)

/-- Data produced by the buffer step for input data `r` and parameter
`inputdata`. -/
def bufData {D : Type} (tb : arcpy.Toolbox D) (inputdata : String) (r : D) : D :=
  tb.bufferGeom r (inputdata ++ " Miles") "FULL" "ROUND" "ALL" "" "PLANAR"

/-- The final store of a successful run: both outputs freshly written. -/
def finalStore {D : Type} (tb : arcpy.Toolbox D) (inputdata : String)
    (s0 : Store D) (r t : D) : Store D :=
  arcpy.putFC
    (arcpy.putFC (postDeletes s0) major_roads_Buffer (bufData tb inputdata r))
    tracts_Clip (tb.clipGeom t (bufData tb inputdata r) "")

/-- Full characterization of a run: trace and result as a function of the
initial presence of the stale outputs and of the two input feature classes. -/
lemma runScript_char {D : Type} (tb : arcpy.Toolbox D) (inputdata : String)
    (s0 : Store D) :
    runScript tb inputdata s0 =
      match arcpy.lookupFC s0 major_roads with
      | none =>
          (deleteTrace s0 ++ [bufCall inputdata],
           Except.error (arcpy.Err.bufferMissingInput major_roads))
      | some r =>
          match arcpy.lookupFC s0 tracts with
          | none =>
              (deleteTrace s0 ++ [bufCall inputdata, clipCallC],
               Except.error (arcpy.Err.clipMissingInput tracts))
          | some t =>
              (deleteTrace s0 ++ [bufCall inputdata, clipCallC],
               Except.ok (finalStore tb inputdata s0 r t)) := by
  have hroads : arcpy.lookupFC (postDeletes s0) major_roads
      = arcpy.lookupFC s0 major_roads :=
    lookupFC_postDeletes_ne s0 major_roads roads_ne_buffer roads_ne_clipOut
  have htracts : arcpy.lookupFC (postDeletes s0) tracts
      = arcpy.lookupFC s0 tracts :=
    lookupFC_postDeletes_ne s0 tracts tracts_ne_buffer tracts_ne_clipOut
  cases hmr : arcpy.lookupFC s0 major_roads with
  | none =>
      simp [runScript, phaseBuffer, phaseDeletes_eq, thenDo,
        arcpy.Buffer_analysis, hroads, hmr, bufCall]
  | some r =>
      cases htr : arcpy.lookupFC s0 tracts with
      | none =>
          simp [runScript, phaseBuffer, phaseDeletes_eq, thenDo,
            arcpy.Buffer_analysis, arcpy.Clip_analysis, hroads, hmr, htracts, htr,
            arcpy.lookupFC_putFC_ne _ _ _ _ tracts_ne_buffer,
            bufCall, clipCallC]
      | some t =>
          simp [runScript, phaseBuffer, phaseDeletes_eq, thenDo,
            arcpy.Buffer_analysis, arcpy.Clip_analysis, hroads, hmr, htracts, htr,
            arcpy.lookupFC_putFC_ne _ _ _ _ tracts_ne_buffer,
            arcpy.lookupFC_putFC_self,
            bufCall, clipCallC, finalStore, bufData]

/-! ### Concrete instances for witnesses -/

/-- A small concrete toolbox over `Nat` data, for witness runs. -/
def exTB : arcpy.Toolbox Nat :=
  { bufferGeom := fun d _ _ _ _ _ _ => d + 1
    clipGeom := fun a b _ => a + 10 * b }

/-- A store holding only the two input feature classes. -/
def exStore : Store Nat := [(tracts, 3), (major_roads, 5)]

/-- A store that additionally holds stale copies of both outputs. -/
def exStoreStale : Store Nat :=
  [(tracts, 3), (major_roads, 5), (major_roads_Buffer, 7), (tracts_Clip, 9)]

/-- The final store of the run of `exTB` on `exStore` with parameter `"2"`. -/
def exFinal : Store Nat :=
  [(tracts_Clip, 63), (major_roads_Buffer, 6), (tracts, 3), (major_roads, 5)]

/-! ### Further helper lemmas -/

/-- The run up to the buffer step always issues `deleteTrace` plus the buffer
call, and succeeds exactly when `major_roads` is present. -/
lemma phaseBuffer_char {D : Type} (tb : arcpy.Toolbox D) (inputdata : String)
    (s0 : Store D) :
    phaseBuffer tb inputdata s0 =
      match arcpy.lookupFC s0 major_roads with
      | none =>
          (deleteTrace s0 ++ [bufCall inputdata],
           Except.error (arcpy.Err.bufferMissingInput major_roads))
      | some r =>
          (deleteTrace s0 ++ [bufCall inputdata],
           Except.ok (arcpy.putFC (postDeletes s0) major_roads_Buffer
             (bufData tb inputdata r))) := by
  have hroads : arcpy.lookupFC (postDeletes s0) major_roads
      = arcpy.lookupFC s0 major_roads :=
    lookupFC_postDeletes_ne s0 major_roads roads_ne_buffer roads_ne_clipOut
  rcases ho : arcpy.lookupFC s0 major_roads with _ | r <;>
    simp [phaseBuffer, phaseDeletes_eq, thenDo, arcpy.Buffer_analysis,
      hroads, ho, bufCall, bufData]

lemma lookupFC_finalStore_buffer {D : Type} (tb : arcpy.Toolbox D)
    (inputdata : String) (s0 : Store D) (r t : D) :
    arcpy.lookupFC (finalStore tb inputdata s0 r t) major_roads_Buffer
      = some (bufData tb inputdata r) := by
  simp [finalStore, arcpy.lookupFC_putFC_ne _ _ _ _ buffer_ne_clipOut,
    arcpy.lookupFC_putFC_self]

lemma lookupFC_finalStore_clipOut {D : Type} (tb : arcpy.Toolbox D)
    (inputdata : String) (s0 : Store D) (r t : D) :
    arcpy.lookupFC (finalStore tb inputdata s0 r t) tracts_Clip
      = some (tb.clipGeom t (bufData tb inputdata r) "") := by
  simp [finalStore, arcpy.lookupFC_putFC_self]

lemma lookupFC_finalStore_ne {D : Type} (tb : arcpy.Toolbox D)
    (inputdata : String) (s0 : Store D) (r t : D) (p : String)
    (h1 : p ≠ major_roads_Buffer) (h2 : p ≠ tracts_Clip) :
    arcpy.lookupFC (finalStore tb inputdata s0 r t) p = arcpy.lookupFC s0 p := by
  simp [finalStore, arcpy.lookupFC_putFC_ne _ _ _ _ h2,
    arcpy.lookupFC_putFC_ne _ _ _ _ h1, lookupFC_postDeletes_ne s0 p h1 h2]

/-- Whether a call is an invocation of the buffer operation. -/
def isBufferCall : Call → Bool
  | Call.bufferCall _ _ _ _ _ _ _ _ => true
  | _ => false

lemma filter_deleteTrace {D : Type} (s0 : Store D) :
    (deleteTrace s0).filter isBufferCall = [] := by
  by_cases e1 : arcpy.Exists s0 major_roads_Buffer <;>
  by_cases e2 : arcpy.Exists s0 tracts_Clip <;>
    simp [deleteTrace, e1, e2, isBufferCall]

/-- Every run issues exactly one buffer call, with the canonical arguments. -/
lemma filter_buffer_trace {D : Type} (tb : arcpy.Toolbox D) (inputdata : String)
    (s0 : Store D) :
    ((runScript tb inputdata s0).1.filter isBufferCall) = [bufCall inputdata] := by
  rcases ho : arcpy.lookupFC s0 major_roads with _ | r
  · simp [runScript_char, ho, filter_deleteTrace, bufCall, isBufferCall]
  · rcases ht : arcpy.lookupFC s0 tracts with _ | t <;>
      simp [runScript_char, ho, ht, filter_deleteTrace, bufCall, clipCallC,
        isBufferCall]

/-- A delete call in the deletion-phase trace concerns a dataset that was
present initially. -/
lemma deleteCall_mem_deleteTrace {D : Type} (s0 : Store D) (p k : String)
    (hp : Call.deleteCall p k ∈ deleteTrace s0) : arcpy.Exists s0 p = true := by
  by_cases e1 : arcpy.Exists s0 major_roads_Buffer <;>
  by_cases e2 : arcpy.Exists s0 tracts_Clip <;>
    simp [deleteTrace, e1, e2] at hp
  · rcases hp with ⟨hp1, _⟩ | ⟨hp1, _⟩ <;> subst hp1
    · exact e1
    · exact e2
  · obtain ⟨hp1, _⟩ := hp
    subst hp1
    exact e1
  · obtain ⟨hp1, _⟩ := hp
    subst hp1
    exact e2

/-! ### Claims -/

/-- C1: for every run (with the pre-existing input `major_roads` present, as
the data model requires), the script performs exactly this sequence of
external operations: for each of the two output identifiers, an existence
check followed by a delete when the dataset exists; then the buffer of
`major_roads` into `major_roads_Buffer`; then the clip of `tracts` by
`major_roads_Buffer` into `tracts_Clip`.  No other operations appear. -/
theorem c1_run_sequence {D : Type} (tb : arcpy.Toolbox D) (inputdata : String)
    (s0 : Store D) (hmr : arcpy.Exists s0 major_roads = true) :
    (runScript tb inputdata s0).1 =
      deleteTrace s0 ++ [bufCall inputdata, clipCallC] := by
  rcases ho : arcpy.lookupFC s0 major_roads with _ | r
  · simp [arcpy.Exists, ho] at hmr
  · rcases ht : arcpy.lookupFC s0 tracts with _ | t <;>
      simp [runScript_char, ho, ht]

theorem c1_run_sequence_witness :
    arcpy.Exists exStoreStale major_roads = true ∧
    (runScript exTB "2" exStoreStale).1 =
      deleteTrace exStoreStale ++ [bufCall "2", clipCallC] :=
  ⟨by rfl, c1_run_sequence exTB "2" exStoreStale (by rfl)⟩

/-- C2: every successful run stores at `tracts_Clip` exactly the clip of the
`tracts` data by the buffer of the `major_roads` data at the supplied
distance. -/
theorem c2_clip_result {D : Type} (tb : arcpy.Toolbox D) (inputdata : String)
    (s0 sF : Store D) (h : (runScript tb inputdata s0).2 = Except.ok sF) :
    ∃ r t, arcpy.lookupFC s0 major_roads = some r ∧
      arcpy.lookupFC s0 tracts = some t ∧
      arcpy.lookupFC sF tracts_Clip =
        some (tb.clipGeom t
          (tb.bufferGeom r (inputdata ++ " Miles") "FULL" "ROUND" "ALL" "" "PLANAR")
          "") := by
  rw [runScript_char] at h
  rcases ho : arcpy.lookupFC s0 major_roads with _ | r
  · simp [ho] at h
  · rcases ht : arcpy.lookupFC s0 tracts with _ | t
    · simp [ho, ht] at h
    · simp only [ho, ht] at h
      have hF : finalStore tb inputdata s0 r t = sF := by
        simpa using h
      refine ⟨r, t, rfl, rfl, ?_⟩
      rw [← hF]
      simpa [bufData] using lookupFC_finalStore_clipOut tb inputdata s0 r t

theorem c2_clip_result_witness :
    ∃ r t, arcpy.lookupFC exStore major_roads = some r ∧
      arcpy.lookupFC exStore tracts = some t ∧
      arcpy.lookupFC exFinal tracts_Clip =
        some (exTB.clipGeom t
          (exTB.bufferGeom r ("2" ++ " Miles") "FULL" "ROUND" "ALL" "" "PLANAR")
          "") :=
  c2_clip_result exTB "2" exStore exFinal (by rfl)

/-- C3: if `major_roads_Buffer` (respectively `tracts_Clip`) existed before
the run, it is absent from the store immediately before the buffer
(respectively clip) operation that recreates it. -/
theorem c3_stale_removed {D : Type} (tb : arcpy.Toolbox D) (inputdata : String)
    (s0 : Store D) :
    (arcpy.Exists s0 major_roads_Buffer = true →
      ∀ s2, (phaseDeletes s0).2 = Except.ok s2 →
        arcpy.Exists s2 major_roads_Buffer = false) ∧
    (arcpy.Exists s0 tracts_Clip = true →
      ∀ s3, (phaseBuffer tb inputdata s0).2 = Except.ok s3 →
        arcpy.Exists s3 tracts_Clip = false) := by
  constructor
  · intro _ s2 h2
    rw [phaseDeletes_eq] at h2
    have : postDeletes s0 = s2 := by simpa using h2
    rw [← this]
    simp [arcpy.Exists, lookupFC_postDeletes_buffer]
  · intro _ s3 h3
    rw [phaseBuffer_char] at h3
    rcases ho : arcpy.lookupFC s0 major_roads with _ | r
    · simp [ho] at h3
    · simp only [ho] at h3
      have : arcpy.putFC (postDeletes s0) major_roads_Buffer
          (bufData tb inputdata r) = s3 := by simpa using h3
      rw [← this]
      simp [arcpy.Exists,
        arcpy.lookupFC_putFC_ne _ _ _ _ buffer_ne_clipOut.symm,
        lookupFC_postDeletes_clipOut]

theorem c3_stale_removed_witness :
    arcpy.Exists exStoreStale major_roads_Buffer = true ∧
    arcpy.Exists exStoreStale tracts_Clip = true ∧
    arcpy.Exists ([(tracts, 3), (major_roads, 5)] : Store Nat)
      major_roads_Buffer = false ∧
    arcpy.Exists
      ([(major_roads_Buffer, 6), (tracts, 3), (major_roads, 5)] : Store Nat)
      tracts_Clip = false :=
  ⟨by rfl, by rfl,
   (c3_stale_removed exTB "2" exStoreStale).1 (by rfl) _ (by rfl),
   (c3_stale_removed exTB "2" exStoreStale).2 (by rfl) _ (by rfl)⟩

/-- C4: in every run the buffer operation is invoked exactly once, on
`major_roads` into `major_roads_Buffer`, with distance expression
`inputdata ++ " Miles"`, side `FULL`, end caps `ROUND`, dissolve `ALL`,
empty dissolve field, and the `PLANAR` method. -/
theorem c4_buffer_args {D : Type} (tb : arcpy.Toolbox D) (inputdata : String)
    (s0 : Store D) :
    ((runScript tb inputdata s0).1.filter isBufferCall) =
      [Call.bufferCall major_roads major_roads_Buffer (inputdata ++ " Miles")
        "FULL" "ROUND" "ALL" "" "PLANAR"] :=
  filter_buffer_trace tb inputdata s0

/-- C5: assuming the external operations are deterministic functions of
their arguments (as the `Toolbox` model makes them), running the script a
second time with the same parameter from the final store of a successful
run succeeds and leaves both outputs with the same contents as after the
first run. -/
theorem c5_idempotent {D : Type} (tb : arcpy.Toolbox D) (inputdata : String)
    (s0 sF : Store D) (h : (runScript tb inputdata s0).2 = Except.ok sF) :
    ∃ sF2, (runScript tb inputdata sF).2 = Except.ok sF2 ∧
      arcpy.lookupFC sF2 major_roads_Buffer
        = arcpy.lookupFC sF major_roads_Buffer ∧
      arcpy.lookupFC sF2 tracts_Clip = arcpy.lookupFC sF tracts_Clip := by
  rw [runScript_char] at h
  rcases ho : arcpy.lookupFC s0 major_roads with _ | r
  · simp [ho] at h
  · rcases ht : arcpy.lookupFC s0 tracts with _ | t
    · simp [ho, ht] at h
    · simp only [ho, ht] at h
      have hF : finalStore tb inputdata s0 r t = sF := by simpa using h
      have ho2 : arcpy.lookupFC sF major_roads = some r := by
        rw [← hF, lookupFC_finalStore_ne tb inputdata s0 r t major_roads
          roads_ne_buffer roads_ne_clipOut, ho]
      have ht2 : arcpy.lookupFC sF tracts = some t := by
        rw [← hF, lookupFC_finalStore_ne tb inputdata s0 r t tracts
          tracts_ne_buffer tracts_ne_clipOut, ht]
      refine ⟨finalStore tb inputdata sF r t, ?_, ?_, ?_⟩
      · rw [runScript_char]
        simp [ho2, ht2]
      · rw [lookupFC_finalStore_buffer, ← hF, lookupFC_finalStore_buffer]
      · rw [lookupFC_finalStore_clipOut, ← hF, lookupFC_finalStore_clipOut]

theorem c5_idempotent_witness :
    ∃ sF2, (runScript exTB "2" exFinal).2 = Except.ok sF2 ∧
      arcpy.lookupFC sF2 major_roads_Buffer
        = arcpy.lookupFC exFinal major_roads_Buffer ∧
      arcpy.lookupFC sF2 tracts_Clip = arcpy.lookupFC exFinal tracts_Clip :=
  c5_idempotent exTB "2" exStore exFinal (by rfl)

/-- C6: if an external operation fails, the run terminates with exactly that
operation's own error (no catching, translation or retry), and the trace
stops at the failing call, so no further external operation is issued.  The
only failing operations are the buffer (missing `major_roads`) and the clip
(missing `tracts`): the guarded deletes never fail. -/
theorem c6_failure_propagation {D : Type} (tb : arcpy.Toolbox D)
    (inputdata : String) (s0 : Store D) (e : arcpy.Err)
    (h : (runScript tb inputdata s0).2 = Except.error e) :
    (e = arcpy.Err.bufferMissingInput major_roads ∧
      (runScript tb inputdata s0).1 = deleteTrace s0 ++ [bufCall inputdata]) ∨
    (e = arcpy.Err.clipMissingInput tracts ∧
      (runScript tb inputdata s0).1
        = deleteTrace s0 ++ [bufCall inputdata, clipCallC]) := by
  rcases ho : arcpy.lookupFC s0 major_roads with _ | r
  · left
    rw [runScript_char] at h ⊢
    simp [ho] at h ⊢
    exact h.symm
  · rcases ht : arcpy.lookupFC s0 tracts with _ | t
    · right
      rw [runScript_char] at h ⊢
      simp [ho, ht] at h ⊢
      exact h.symm
    · rw [runScript_char] at h
      simp [ho, ht] at h

theorem c6_failure_propagation_witness :
    (arcpy.Err.bufferMissingInput major_roads
        = arcpy.Err.bufferMissingInput major_roads ∧
      (runScript exTB "2" ([] : Store Nat)).1
        = deleteTrace ([] : Store Nat) ++ [bufCall "2"]) ∨
    (arcpy.Err.bufferMissingInput major_roads
        = arcpy.Err.clipMissingInput tracts ∧
      (runScript exTB "2" ([] : Store Nat)).1
        = deleteTrace ([] : Store Nat) ++ [bufCall "2", clipCallC]) :=
  c6_failure_propagation exTB "2" ([] : Store Nat)
    (arcpy.Err.bufferMissingInput major_roads) (by rfl)

/-- The identifier a call mutates (deletes or creates), if any. -/
def mutatedId : Call → Option String
  | Call.existsCheck _ => none
  | Call.deleteCall p _ => some p
  | Call.bufferCall _ o _ _ _ _ _ _ => some o
  | Call.clipCall _ _ o _ => some o

/-- Whether a call mutates nothing beyond the two output identifiers. -/
def mutatesOnlyOutputs (c : Call) : Bool :=
  match mutatedId c with
  | none => true
  | some p => p == major_roads_Buffer || p == tracts_Clip

lemma deleteTrace_all_outputs {D : Type} (s0 : Store D) :
    (deleteTrace s0).all mutatesOnlyOutputs = true := by
  by_cases e1 : arcpy.Exists s0 major_roads_Buffer <;>
  by_cases e2 : arcpy.Exists s0 tracts_Clip <;>
    simp [deleteTrace, e1, e2, mutatesOnlyOutputs, mutatedId]

/-- C7: the script never mutates the input feature classes: every call that
deletes or creates a dataset targets `major_roads_Buffer` or `tracts_Clip`
only, and on a successful run `tracts` and `major_roads` hold the same data
as before the run. -/
theorem c7_inputs_readonly {D : Type} (tb : arcpy.Toolbox D)
    (inputdata : String) (s0 : Store D) :
    ((runScript tb inputdata s0).1.all mutatesOnlyOutputs = true) ∧
    (∀ sF, (runScript tb inputdata s0).2 = Except.ok sF →
      arcpy.lookupFC sF tracts = arcpy.lookupFC s0 tracts ∧
      arcpy.lookupFC sF major_roads = arcpy.lookupFC s0 major_roads) := by
  constructor
  · rcases ho : arcpy.lookupFC s0 major_roads with _ | r
    · simp [runScript_char, ho, deleteTrace_all_outputs, mutatesOnlyOutputs,
        mutatedId, bufCall]
    · rcases ht : arcpy.lookupFC s0 tracts with _ | t <;>
        simp [runScript_char, ho, ht, deleteTrace_all_outputs,
          mutatesOnlyOutputs, mutatedId, bufCall, clipCallC]
  · intro sF h
    rw [runScript_char] at h
    rcases ho : arcpy.lookupFC s0 major_roads with _ | r
    · simp [ho] at h
    · rcases ht : arcpy.lookupFC s0 tracts with _ | t
      · simp [ho, ht] at h
      · simp only [ho, ht] at h
        have hF : finalStore tb inputdata s0 r t = sF := by simpa using h
        rw [← hF]
        constructor
        · rw [lookupFC_finalStore_ne tb inputdata s0 r t tracts
            tracts_ne_buffer tracts_ne_clipOut, ht]
        · rw [lookupFC_finalStore_ne tb inputdata s0 r t major_roads
            roads_ne_buffer roads_ne_clipOut, ho]

theorem c7_inputs_readonly_witness :
    ((runScript exTB "2" exStoreStale).1.all mutatesOnlyOutputs = true) ∧
    (arcpy.lookupFC exFinal tracts = arcpy.lookupFC exStore tracts ∧
     arcpy.lookupFC exFinal major_roads = arcpy.lookupFC exStore major_roads) :=
  ⟨(c7_inputs_readonly exTB "2" exStoreStale).1,
   (c7_inputs_readonly exTB "2" exStore).2 exFinal (by rfl)⟩

/-- Erase the one argument of a call that depends on the run-time parameter:
the distance expression of a buffer call. -/
def eraseDistance : Call → Call
  | Call.bufferCall i o _ a b c e f => Call.bufferCall i o "" a b c e f
  | c => c

/-- C8: the run-time parameter influences only the distance expression of
the buffer call: two runs from the same store with any two parameter values
issue the same calls in the same order, identical in every argument except
the buffer distance expression. -/
theorem c8_param_noninterference {D : Type} (tb : arcpy.Toolbox D)
    (ia ib : String) (s0 : Store D) :
    ((runScript tb ia s0).1.map eraseDistance)
      = ((runScript tb ib s0).1.map eraseDistance) := by
  rcases ho : arcpy.lookupFC s0 major_roads with _ | r
  · simp [runScript_char, ho, eraseDistance, bufCall]
  · rcases ht : arcpy.lookupFC s0 tracts with _ | t <;>
      simp [runScript_char, ho, ht, eraseDistance, bufCall, clipCallC]

/-- C9: the script performs no validation of the run-time parameter: for
every string, including the empty string, the buffer call's distance
expression is the string concatenated with `" Miles"`; the empty parameter
yields the expression `" Miles"`. -/
theorem c9_no_validation {D : Type} (tb : arcpy.Toolbox D) (s0 : Store D) :
    (∀ inputdata : String,
      ((runScript tb inputdata s0).1.filter isBufferCall) =
        [Call.bufferCall major_roads major_roads_Buffer (inputdata ++ " Miles")
          "FULL" "ROUND" "ALL" "" "PLANAR"]) ∧
    ((runScript tb "" s0).1.filter isBufferCall) =
      [Call.bufferCall major_roads major_roads_Buffer " Miles"
        "FULL" "ROUND" "ALL" "" "PLANAR"] :=
  ⟨fun inputdata => filter_buffer_trace tb inputdata s0,
   filter_buffer_trace tb "" s0⟩

/-- C10: the script never deletes a dataset that does not exist: every
delete call in the trace targets a dataset present in the initial store,
and the delete operation's missing-dataset error is unreachable. -/
theorem c10_no_delete_missing {D : Type} (tb : arcpy.Toolbox D)
    (inputdata : String) (s0 : Store D) :
    (∀ p k, Call.deleteCall p k ∈ (runScript tb inputdata s0).1 →
      arcpy.Exists s0 p = true) ∧
    (∀ p, (runScript tb inputdata s0).2
      ≠ Except.error (arcpy.Err.deleteMissing p)) := by
  constructor
  · intro p k hp
    have hp2 : Call.deleteCall p k ∈ deleteTrace s0 := by
      rcases ho : arcpy.lookupFC s0 major_roads with _ | r
      · rw [runScript_char] at hp
        simp [ho, bufCall] at hp
        simpa using hp
      · rcases ht : arcpy.lookupFC s0 tracts with _ | t <;>
        · rw [runScript_char] at hp
          simp [ho, ht, bufCall, clipCallC] at hp
          simpa using hp
    exact deleteCall_mem_deleteTrace s0 p k hp2
  · intro p
    rcases ho : arcpy.lookupFC s0 major_roads with _ | r
    · simp [runScript_char, ho]
    · rcases ht : arcpy.lookupFC s0 tracts with _ | t <;>
        simp [runScript_char, ho, ht]

theorem c10_no_delete_missing_witness :
    arcpy.Exists exStoreStale major_roads_Buffer = true ∧
    (runScript exTB "2" exStoreStale).2
      ≠ Except.error (arcpy.Err.deleteMissing tracts) :=
  ⟨(c10_no_delete_missing exTB "2" exStoreStale).1
      major_roads_Buffer "FeatureClass" (by decide),
   (c10_no_delete_missing exTB "2" exStoreStale).2 tracts⟩
